import Mathlib

/-!
Verification of the `ptctl` shim (`src/ptctl.c`): six one-line forwarding
functions over the POSIX job-control primitives `tcsetpgrp`, `tcgetpgrp`,
`setpgid`, `getpgrp`, `getpgid`, plus an accessor for the thread-local
`errno` value.

The shim itself contains no logic: each `ptctl_*` function is a direct
forwarding call.  The observable behaviour is therefore that of the
operating-system primitives, which are modelled here as explicit
state-passing functions over an `OSState` record holding the terminal
foreground groups, the process-group table, the permission oracles of the
OS, the calling process id and the thread-local `errno`.
-/

namespace Ptctl

/-- POSIX error code EPERM (operation not permitted). -/
def EPERM : Int := 1

/-- POSIX error code ESRCH (no such process). -/
def ESRCH : Int := 3

/-- POSIX error code EBADF (bad file descriptor / not an open terminal). -/
def EBADF : Int := 9

/-- POSIX error code EINVAL (invalid argument). -/
def EINVAL : Int := 22

/-- Modelled from the spec: the operating-system state visible through the
shim.  The OS primitives `tcsetpgrp`, `tcgetpgrp`, `setpgid`, `getpgrp`,
`getpgid` and the thread-local `errno` are not part of this repository;
following the spec, `fgGrp fd` is the foreground process group of the
terminal open at descriptor `fd` (`none` when `fd` is not an open
terminal), `pgid p` is the process group of process `p` (`none` when no
such process exists), `permittedFg fd g` says whether the OS permits `g`
as foreground group of the terminal at `fd`, `canSetpgid p g` says whether
the caller has permission to move process `p` into group `g`, `selfPid` is
the calling process's id, and `errno` is the captured thread-local error
code. -/
structure OSState where
  fgGrp : Int → Option Int
  pgid : Int → Option Int
  permittedFg : Int → Int → Bool
  canSetpgid : Int → Int → Bool
  selfPid : Int
  errno : Int

/-- Modelled from the spec: the OS primitive `tcsetpgrp`.  On an open
terminal descriptor with a permitted group it records the new foreground
group and returns 0; otherwise it returns -1 and sets `errno` to a
non-zero code.  On success `errno` is left untouched. -/
def os_tcsetpgrp (s : OSState) (fd pgrp : Int) : Int × OSState :=
  match s.fgGrp fd with
  | none => (-1, { s with errno := EBADF })
  | some _ =>
    if s.permittedFg fd pgrp then
      (0, { s with fgGrp := fun f => if f = fd then some pgrp else s.fgGrp f })
    else
      (-1, { s with errno := EINVAL })

/-- Modelled from the spec: the OS primitive `tcgetpgrp`.  On an open
terminal descriptor it returns the foreground process group and leaves the
state untouched; otherwise it returns -1 and sets `errno` to a non-zero
code. -/
def os_tcgetpgrp (s : OSState) (fd : Int) : Int × OSState :=
  match s.fgGrp fd with
  | some g => (g, s)
  | none => (-1, { s with errno := EBADF })

/-- The process actually designated by a `pid` argument: POSIX treats
`pid = 0` as the calling process. -/
def pidTarget (s : OSState) (pid : Int) : Int :=
  if pid = 0 then s.selfPid else pid

/-- Modelled from the spec: the OS primitive `setpgid`.  `pid = 0` means
the calling process and `pgid = 0` means the designated process's own id.
If the designated process exists and the caller is permitted to move it,
its group is updated and 0 is returned; otherwise -1 is returned and
`errno` is set to a non-zero code.  On success `errno` is left
untouched. -/
def os_setpgid (s : OSState) (pid pgid : Int) : Int × OSState :=
  let rp := pidTarget s pid
  let rg := if pgid = 0 then rp else pgid
  match s.pgid rp with
  | none => (-1, { s with errno := ESRCH })
  | some _ =>
    if s.canSetpgid rp rg then
      (0, { s with pgid := fun p => if p = rp then some rg else s.pgid p })
    else
      (-1, { s with errno := EPERM })

/-- Modelled from the spec: the OS primitive `getpgrp`.  It returns the
calling process's process-group id and cannot fail; the state (including
`errno`) is left untouched. -/
def os_getpgrp (s : OSState) : Int × OSState :=
  ((s.pgid s.selfPid).getD 0, s)

/-- Modelled from the spec: the OS primitive `getpgid`.  `pid = 0` means
the calling process.  If the designated process exists its group id is
returned and the state is untouched; otherwise -1 is returned and `errno`
is set to a non-zero code. -/
def os_getpgid (s : OSState) (pid : Int) : Int × OSState :=
  match s.pgid (pidTarget s pid) with
  | some g => (g, s)
  | none => (-1, { s with errno := ESRCH })

/-- Embeds `ptctl_tcsetpgrp` from `src/ptctl.c`: a one-line forward to the
OS primitive `tcsetpgrp`. -/
def ptctl_tcsetpgrp (s : OSState) (fd pgrp : Int) : Int × OSState :=
  os_tcsetpgrp s fd pgrp

/-- Embeds `ptctl_tcgetpgrp` from `src/ptctl.c`: a one-line forward to the
OS primitive `tcgetpgrp`. -/
def ptctl_tcgetpgrp (s : OSState) (fd : Int) : Int × OSState :=
  os_tcgetpgrp s fd

/-- Embeds `ptctl_setpgid` from `src/ptctl.c`: a one-line forward to the
OS primitive `setpgid`. -/
def ptctl_setpgid (s : OSState) (pid pgid : Int) : Int × OSState :=
  os_setpgid s pid pgid

/-- Embeds `ptctl_getpgrp` from `src/ptctl.c`: a one-line forward to the
OS primitive `getpgrp`. -/
def ptctl_getpgrp (s : OSState) : Int × OSState :=
  os_getpgrp s

/-- Embeds `ptctl_getpgid` from `src/ptctl.c`: a one-line forward to the
OS primitive `getpgid`. -/
def ptctl_getpgid (s : OSState) (pid : Int) : Int × OSState :=
  os_getpgid s pid

/-- Embeds `ptctl_get_errno` from `src/ptctl.c`: reads the thread-local
`errno` value. -/
def ptctl_get_errno (s : OSState) : Int × OSState :=
  (s.errno, s)

/-- A concrete OS state used to instantiate universally quantified
theorems: the terminal at descriptor 5 is open with foreground group 7,
processes 1 and 2 exist (both in group 1), the calling process is 1, any
positive group is permitted, and no error has been captured. -/
def demoState : OSState where
  fgGrp := fun fd => if fd = 5 then some 7 else none
  pgid := fun p => if p = 1 then some 1 else if p = 2 then some 1 else none
  permittedFg := fun _ g => decide (0 < g)
  canSetpgid := fun _ g => decide (0 < g)
  selfPid := 1
  errno := 0

/-- C1: for every open terminal descriptor `fd` and every process group
`pgrp` that the OS permits as that terminal's foreground group, calling
`ptctl_tcsetpgrp fd pgrp` and then `ptctl_tcgetpgrp fd` returns `pgrp`. -/
theorem tcset_then_tcget (s : OSState) (fd pgrp : Int)
    (hopen : (s.fgGrp fd).isSome = true)
    (hperm : s.permittedFg fd pgrp = true) :
    (ptctl_tcgetpgrp (ptctl_tcsetpgrp s fd pgrp).2 fd).1 = pgrp := by
  obtain ⟨g, hg⟩ := Option.isSome_iff_exists.mp hopen
  simp [ptctl_tcsetpgrp, ptctl_tcgetpgrp, os_tcsetpgrp, os_tcgetpgrp, hg,
    hperm]

/-- C1 witness: in `demoState`, descriptor 5 is an open terminal and group
9 is permitted, and set-then-get indeed returns 9. -/
theorem tcset_then_tcget_witness :
    (ptctl_tcgetpgrp (ptctl_tcsetpgrp demoState 5 9).2 5).1 = 9 :=
  tcset_then_tcget demoState 5 9 (by decide) (by decide)

/-- C4: each of the five syscall-wrapping shim functions is extensionally
equal to the OS primitive it names: for every state and every input, the
returned value and the resulting OS state (including `errno`) coincide
with the primitive's. -/
theorem shim_refines_primitives (s : OSState) (fd pgrp pid pgid : Int) :
    ptctl_tcsetpgrp s fd pgrp = os_tcsetpgrp s fd pgrp ∧
    ptctl_tcgetpgrp s fd = os_tcgetpgrp s fd ∧
    ptctl_setpgid s pid pgid = os_setpgid s pid pgid ∧
    ptctl_getpgrp s = os_getpgrp s ∧
    ptctl_getpgid s pid = os_getpgid s pid :=
  ⟨rfl, rfl, rfl, rfl, rfl⟩

/-- C5: `ptctl_getpgrp` cannot fail: whenever the calling process is in
group `g` (which is non-negative, as every actual process-group id is), it
returns exactly `g`, hence a non-negative value and never the -1
sentinel. -/
theorem getpgrp_total (s : OSState) (g : Int)
    (hg : s.pgid s.selfPid = some g) (hnn : 0 ≤ g) :
    (ptctl_getpgrp s).1 = g ∧ 0 ≤ (ptctl_getpgrp s).1 ∧
      (ptctl_getpgrp s).1 ≠ -1 := by
  unfold ptctl_getpgrp os_getpgrp
  rw [hg, Option.getD_some]
  exact ⟨rfl, hnn, by omega⟩

/-- C5 witness: in `demoState` the calling process (pid 1) is in group 1,
and `ptctl_getpgrp` returns 1, a non-negative value distinct from -1. -/
theorem getpgrp_total_witness :
    (ptctl_getpgrp demoState).1 = 1 ∧ 0 ≤ (ptctl_getpgrp demoState).1 ∧
      (ptctl_getpgrp demoState).1 ≠ -1 :=
  getpgrp_total demoState 1 (by decide) (by decide)

/-- C8: `ptctl_get_errno` is a pure read of the captured error code: it
returns `errno`, leaves the whole state (error code included) unchanged,
and two consecutive calls return the same value. -/
theorem get_errno_pure (s : OSState) :
    (ptctl_get_errno s).1 = s.errno ∧ (ptctl_get_errno s).2 = s ∧
      (ptctl_get_errno (ptctl_get_errno s).2).1 = (ptctl_get_errno s).1 :=
  ⟨rfl, rfl, rfl⟩

/-- C10: `ptctl_getpgid 0` inherits the `pid = 0` special case of the OS
primitive `getpgid` and returns the calling process's own process-group
id, the very value `ptctl_getpgrp` returns. -/
theorem getpgid_zero_is_getpgrp (s : OSState)
    (hself : (s.pgid s.selfPid).isSome = true) :
    (ptctl_getpgid s 0).1 = (ptctl_getpgrp s).1 := by
  unfold ptctl_getpgid ptctl_getpgrp os_getpgid os_getpgrp pidTarget
  cases h : s.pgid s.selfPid with
  | none => rw [h] at hself; simp at hself
  | some g => simp [h]

/-- C10 witness: in `demoState` the calling process exists, and
`ptctl_getpgid 0` agrees with `ptctl_getpgrp`. -/
theorem getpgid_zero_is_getpgrp_witness :
    (ptctl_getpgid demoState 0).1 = (ptctl_getpgrp demoState).1 :=
  getpgid_zero_is_getpgrp demoState (by decide)

/-- C2: for every existing process `pid` (a positive id, so not the
`pid = 0` shorthand for the calling process) that the caller has
permission to move into the process group `pgid` (a positive id, so an
actual group id and not the `pgid = 0` shorthand), `ptctl_setpgid pid
pgid` returns 0 and a subsequent `ptctl_getpgid pid` returns `pgid`; with
`pgid = pid` this is exactly the spec's scenario of a process `P` making
itself a group leader. -/
theorem setpgid_then_getpgid (s : OSState) (pid pgid : Int)
    (hpid : 0 < pid) (hpgid : 0 < pgid)
    (hex : (s.pgid pid).isSome = true)
    (hcan : s.canSetpgid pid pgid = true) :
    (ptctl_setpgid s pid pgid).1 = 0 ∧
      (ptctl_getpgid (ptctl_setpgid s pid pgid).2 pid).1 = pgid := by
  obtain ⟨g, hg⟩ := Option.isSome_iff_exists.mp hex
  have hpid0 : pid ≠ 0 := by omega
  have hpgid0 : pgid ≠ 0 := by omega
  simp [ptctl_setpgid, ptctl_getpgid, os_setpgid, os_getpgid, pidTarget,
    hpid0, hpgid0, hg, hcan]

/-- C2 witness: in `demoState`, process 2 (in group 1, so not yet a group
leader) is moved into group 2 by `ptctl_setpgid 2 2`, which returns 0, and
`ptctl_getpgid 2` then returns 2. -/
theorem setpgid_then_getpgid_witness :
    (ptctl_setpgid demoState 2 2).1 = 0 ∧
      (ptctl_getpgid (ptctl_setpgid demoState 2 2).2 2).1 = 2 :=
  setpgid_then_getpgid demoState 2 2 (by decide) (by decide) (by decide)
    (by decide)

/-- C3: each fallible operation, called with an invalid argument (a
descriptor that is not an open terminal for the two terminal operations, a
nonexistent process for the two process-group operations), returns the
sentinel -1, and `ptctl_get_errno` on the resulting state returns a
non-zero error code. -/
theorem fallible_ops_set_errno (s : OSState) (fd pgrp pid pgid : Int)
    (hfd : s.fgGrp fd = none)
    (hpid : s.pgid (pidTarget s pid) = none) :
    ((ptctl_tcsetpgrp s fd pgrp).1 = -1 ∧
      (ptctl_get_errno (ptctl_tcsetpgrp s fd pgrp).2).1 ≠ 0) ∧
    ((ptctl_tcgetpgrp s fd).1 = -1 ∧
      (ptctl_get_errno (ptctl_tcgetpgrp s fd).2).1 ≠ 0) ∧
    ((ptctl_setpgid s pid pgid).1 = -1 ∧
      (ptctl_get_errno (ptctl_setpgid s pid pgid).2).1 ≠ 0) ∧
    ((ptctl_getpgid s pid).1 = -1 ∧
      (ptctl_get_errno (ptctl_getpgid s pid).2).1 ≠ 0) := by
  simp [ptctl_tcsetpgrp, ptctl_tcgetpgrp, ptctl_setpgid, ptctl_getpgid,
    ptctl_get_errno, os_tcsetpgrp, os_tcgetpgrp, os_setpgid, os_getpgid,
    hfd, hpid, EBADF, ESRCH]

/-- C3 witness: in `demoState`, descriptor 6 is not an open terminal and
process 3 does not exist; all four fallible operations return -1 there and
leave a non-zero error code. -/
theorem fallible_ops_set_errno_witness :
    ((ptctl_tcsetpgrp demoState 6 7).1 = -1 ∧
      (ptctl_get_errno (ptctl_tcsetpgrp demoState 6 7).2).1 ≠ 0) ∧
    ((ptctl_tcgetpgrp demoState 6).1 = -1 ∧
      (ptctl_get_errno (ptctl_tcgetpgrp demoState 6).2).1 ≠ 0) ∧
    ((ptctl_setpgid demoState 3 7).1 = -1 ∧
      (ptctl_get_errno (ptctl_setpgid demoState 3 7).2).1 ≠ 0) ∧
    ((ptctl_getpgid demoState 3).1 = -1 ∧
      (ptctl_get_errno (ptctl_getpgid demoState 3).2).1 ≠ 0) :=
  fallible_ops_set_errno demoState 6 7 3 7 (by decide) (by decide)

/-- C6: every operation is a total function whose result is an integer:
either the documented value (0 for the setters, the looked-up group id for
the getters, the captured code for the error accessor) or the -1 sentinel;
no other failure channel exists. -/
theorem ops_return_result_or_sentinel (s : OSState) (fd pgrp pid pgid : Int) :
    ((ptctl_tcsetpgrp s fd pgrp).1 = 0 ∨ (ptctl_tcsetpgrp s fd pgrp).1 = -1) ∧
    ((ptctl_tcgetpgrp s fd).1 = -1 ∨
      s.fgGrp fd = some (ptctl_tcgetpgrp s fd).1) ∧
    ((ptctl_setpgid s pid pgid).1 = 0 ∨ (ptctl_setpgid s pid pgid).1 = -1) ∧
    (ptctl_getpgrp s).1 = (s.pgid s.selfPid).getD 0 ∧
    ((ptctl_getpgid s pid).1 = -1 ∨
      s.pgid (pidTarget s pid) = some (ptctl_getpgid s pid).1) ∧
    (ptctl_get_errno s).1 = s.errno := by
  refine ⟨?_, ?_, ?_, rfl, ?_, rfl⟩
  · unfold ptctl_tcsetpgrp os_tcsetpgrp
    cases h : s.fgGrp fd with
    | none => simp
    | some g => dsimp only; split <;> simp
  · unfold ptctl_tcgetpgrp os_tcgetpgrp
    cases h : s.fgGrp fd with
    | none => simp
    | some g => simp
  · unfold ptctl_setpgid os_setpgid
    dsimp only
    cases h : s.pgid (pidTarget s pid) with
    | none => simp
    | some g => dsimp only; split <;> split <;> simp
  · unfold ptctl_getpgid os_getpgid
    cases h : s.pgid (pidTarget s pid) with
    | none => simp
    | some g => simp

/-- C7: the four getters leave the terminal table, the process-group
table, the permission oracles and the calling pid unchanged (`getpgrp` and
`get_errno` cannot fail and leave the whole state, `errno` included,
unchanged); `tcsetpgrp` changes at most the foreground group of the given
descriptor, and `setpgid` changes at most the group of the designated
process. -/
theorem ops_frame (s : OSState) (fd pgrp pid pgid f p : Int)
    (hf : f ≠ fd) (hp : p ≠ pidTarget s pid) :
    ((ptctl_tcgetpgrp s fd).2.fgGrp = s.fgGrp ∧
      (ptctl_tcgetpgrp s fd).2.pgid = s.pgid ∧
      (ptctl_tcgetpgrp s fd).2.permittedFg = s.permittedFg ∧
      (ptctl_tcgetpgrp s fd).2.canSetpgid = s.canSetpgid ∧
      (ptctl_tcgetpgrp s fd).2.selfPid = s.selfPid) ∧
    (ptctl_getpgrp s).2 = s ∧
    ((ptctl_getpgid s pid).2.fgGrp = s.fgGrp ∧
      (ptctl_getpgid s pid).2.pgid = s.pgid ∧
      (ptctl_getpgid s pid).2.permittedFg = s.permittedFg ∧
      (ptctl_getpgid s pid).2.canSetpgid = s.canSetpgid ∧
      (ptctl_getpgid s pid).2.selfPid = s.selfPid) ∧
    (ptctl_get_errno s).2 = s ∧
    ((ptctl_tcsetpgrp s fd pgrp).2.pgid = s.pgid ∧
      (ptctl_tcsetpgrp s fd pgrp).2.permittedFg = s.permittedFg ∧
      (ptctl_tcsetpgrp s fd pgrp).2.canSetpgid = s.canSetpgid ∧
      (ptctl_tcsetpgrp s fd pgrp).2.selfPid = s.selfPid ∧
      (ptctl_tcsetpgrp s fd pgrp).2.fgGrp f = s.fgGrp f) ∧
    ((ptctl_setpgid s pid pgid).2.fgGrp = s.fgGrp ∧
      (ptctl_setpgid s pid pgid).2.permittedFg = s.permittedFg ∧
      (ptctl_setpgid s pid pgid).2.canSetpgid = s.canSetpgid ∧
      (ptctl_setpgid s pid pgid).2.selfPid = s.selfPid ∧
      (ptctl_setpgid s pid pgid).2.pgid p = s.pgid p) := by
  refine ⟨?_, rfl, ?_, rfl, ?_, ?_⟩
  · unfold ptctl_tcgetpgrp os_tcgetpgrp
    cases h : s.fgGrp fd with
    | none => simp
    | some g => simp
  · unfold ptctl_getpgid os_getpgid
    cases h : s.pgid (pidTarget s pid) with
    | none => simp
    | some g => simp
  · unfold ptctl_tcsetpgrp os_tcsetpgrp
    cases h : s.fgGrp fd with
    | none => simp
    | some g => dsimp only; split <;> simp [hf]
  · unfold ptctl_setpgid os_setpgid
    dsimp only
    cases h : s.pgid (pidTarget s pid) with
    | none => simp
    | some g => dsimp only; split <;> split <;> simp [hp]

/-- C7 witness: in `demoState`, with descriptor 5 and process 2, every
component other than the one each operation names is unchanged; in
particular descriptor 100 and process 100 are untouched by the
setters. -/
theorem ops_frame_witness :
    ((ptctl_tcgetpgrp demoState 5).2.fgGrp = demoState.fgGrp ∧
      (ptctl_tcgetpgrp demoState 5).2.pgid = demoState.pgid ∧
      (ptctl_tcgetpgrp demoState 5).2.permittedFg = demoState.permittedFg ∧
      (ptctl_tcgetpgrp demoState 5).2.canSetpgid = demoState.canSetpgid ∧
      (ptctl_tcgetpgrp demoState 5).2.selfPid = demoState.selfPid) ∧
    (ptctl_getpgrp demoState).2 = demoState ∧
    ((ptctl_getpgid demoState 2).2.fgGrp = demoState.fgGrp ∧
      (ptctl_getpgid demoState 2).2.pgid = demoState.pgid ∧
      (ptctl_getpgid demoState 2).2.permittedFg = demoState.permittedFg ∧
      (ptctl_getpgid demoState 2).2.canSetpgid = demoState.canSetpgid ∧
      (ptctl_getpgid demoState 2).2.selfPid = demoState.selfPid) ∧
    (ptctl_get_errno demoState).2 = demoState ∧
    ((ptctl_tcsetpgrp demoState 5 9).2.pgid = demoState.pgid ∧
      (ptctl_tcsetpgrp demoState 5 9).2.permittedFg = demoState.permittedFg ∧
      (ptctl_tcsetpgrp demoState 5 9).2.canSetpgid = demoState.canSetpgid ∧
      (ptctl_tcsetpgrp demoState 5 9).2.selfPid = demoState.selfPid ∧
      (ptctl_tcsetpgrp demoState 5 9).2.fgGrp 100 = demoState.fgGrp 100) ∧
    ((ptctl_setpgid demoState 2 2).2.fgGrp = demoState.fgGrp ∧
      (ptctl_setpgid demoState 2 2).2.permittedFg = demoState.permittedFg ∧
      (ptctl_setpgid demoState 2 2).2.canSetpgid = demoState.canSetpgid ∧
      (ptctl_setpgid demoState 2 2).2.selfPid = demoState.selfPid ∧
      (ptctl_setpgid demoState 2 2).2.pgid 100 = demoState.pgid 100) :=
  ops_frame demoState 5 9 2 2 100 100 (by decide) (by decide)

/-- C9: a succeeding operation leaves the captured error code untouched
(the shim never writes `errno` on success), so after a failing operation
(here `tcsetpgrp` on a closed descriptor) followed by a succeeding one
(here `getpgrp`), `ptctl_get_errno` still returns the earlier failure's
non-zero code rather than zero. -/
theorem success_preserves_errno (s : OSState) (fd pgrp pid pgid fd2 : Int)
    (hopen : (s.fgGrp fd).isSome = true)
    (hperm : s.permittedFg fd pgrp = true)
    (hex : (s.pgid (pidTarget s pid)).isSome = true)
    (hcan : s.canSetpgid (pidTarget s pid)
      (if pgid = 0 then pidTarget s pid else pgid) = true)
    (hclosed : s.fgGrp fd2 = none) :
    (ptctl_tcsetpgrp s fd pgrp).2.errno = s.errno ∧
    (ptctl_tcgetpgrp s fd).2.errno = s.errno ∧
    (ptctl_setpgid s pid pgid).2.errno = s.errno ∧
    (ptctl_getpgid s pid).2.errno = s.errno ∧
    (ptctl_getpgrp s).2.errno = s.errno ∧
    ((ptctl_get_errno
        (ptctl_getpgrp (ptctl_tcsetpgrp s fd2 pgrp).2).2).1 = EBADF ∧
      (EBADF : Int) ≠ 0) := by
  obtain ⟨g1, hg1⟩ := Option.isSome_iff_exists.mp hopen
  obtain ⟨g2, hg2⟩ := Option.isSome_iff_exists.mp hex
  refine ⟨?_, ?_, ?_, ?_, rfl, ?_, ?_⟩
  · simp [ptctl_tcsetpgrp, os_tcsetpgrp, hg1, hperm]
  · simp [ptctl_tcgetpgrp, os_tcgetpgrp, hg1]
  · simp [ptctl_setpgid, os_setpgid, hg2, hcan]
  · simp [ptctl_getpgid, os_getpgid, hg2]
  · simp [ptctl_get_errno, ptctl_getpgrp, os_getpgrp, ptctl_tcsetpgrp,
      os_tcsetpgrp, hclosed]
  · unfold EBADF; omega

/-- C9 witness: in `demoState`, descriptor 5 is open with group 9
permitted, process 2 may be moved to group 2, descriptor 6 is closed; all
succeeding operations keep the error code 0, and after the failing
`tcsetpgrp` on descriptor 6 a succeeding `getpgrp` still leaves the
non-zero code EBADF readable. -/
theorem success_preserves_errno_witness :
    (ptctl_tcsetpgrp demoState 5 9).2.errno = demoState.errno ∧
    (ptctl_tcgetpgrp demoState 5).2.errno = demoState.errno ∧
    (ptctl_setpgid demoState 2 2).2.errno = demoState.errno ∧
    (ptctl_getpgid demoState 2).2.errno = demoState.errno ∧
    (ptctl_getpgrp demoState).2.errno = demoState.errno ∧
    ((ptctl_get_errno
        (ptctl_getpgrp (ptctl_tcsetpgrp demoState 6 9).2).2).1 = EBADF ∧
      (EBADF : Int) ≠ 0) :=
  success_preserves_errno demoState 5 9 2 2 6 (by decide) (by decide)
    (by decide) (by decide) (by decide)

end Ptctl
